import Mathlib

/-!
Shallow embedding of the `io-prompt-prototype` crate (src/lib.rs): a
`read_line` helper returning `io::Result<String>`, and the four prompting
macros `prompt!`, `promptln!`, `eprompt!`, `epromptln!`, which write a
formatted prompt, flush, read one line from stdin, and strip trailing line
terminators.

Strings are modelled as `List Char`; the standard streams as an input
`List Char` (stdin) plus a trace of stream effects recording every write,
flush and read with the stream it targets.  I/O failures are injected by
boolean flags; a `panic!`/`expect` abort is modelled as a `RunResult.panicked`
carrying the message, while `io::Result` is modelled as `Except`.
-/

/-- One effect on the process's standard streams: a (buffered) write of text to
stdout or stderr, a flush of stdout or stderr, or a line read from stdin. -/
inductive Effect where
  | writeOut : List Char → Effect
  | writeErr : List Char → Effect
  | flushOut : Effect
  | flushErr : Effect
  | readIn : Effect
  deriving DecidableEq, Repr

/-- Whether an effect touches the standard error stream. -/
def touchesStderr : Effect → Bool
  | Effect.writeErr _ => true
  | Effect.flushErr => true
  | _ => false

/-- Marker payload for the `Err` case of `io::Result`. -/
inductive IOError where
  | ioError
  deriving DecidableEq, Repr

/-- Semantics of `Stdin::read_line` on a modelled byte stream: consume
characters up to and including the first newline, or the whole stream if
end-of-stream comes first.  Returns the captured line (terminator included)
and the remaining input. -/
def readLineFrom : List Char → List Char × List Char
  | [] => ([], [])
  | c :: cs =>
      if c = '\n' then ([c], cs)
      else
        let p := readLineFrom cs
        (c :: p.1, p.2)

/-- Embeds `read_line` (src/lib.rs lines 65-69): read one line of input from
stdin into a fresh string and return it, terminator included, surfacing any
underlying I/O failure as a recoverable `io::Result` value (`Except`).
The flag `e` injects a read failure of the underlying stream. -/
def read_line (e : Bool) (stdin : List Char) :
    Except IOError (List Char × List Char) :=
  if e then Except.error IOError.ioError else Except.ok (readLineFrom stdin)

/-- Fault injection for the stream operations a prompting macro performs:
whether the `stdout().flush()` call fails, and whether the underlying stdin
read fails. -/
structure StreamErrs where
  flushErr : Bool
  readErr : Bool
  deriving DecidableEq, Repr

/-- The happy path: no injected I/O failures. -/
def noErrs : StreamErrs := ⟨false, false⟩

/-- Outcome of one prompting-macro invocation: either the returned string, the
remaining stdin and the trace of stream effects, or a panic with its message
together with the effects performed before the abort. -/
inductive RunResult where
  | ok : List Char → List Char → List Effect → RunResult
  | panicked : String → List Effect → RunResult
  deriving DecidableEq, Repr

/-- The string value a successful run returns, if it did not panic. -/
def RunResult.value : RunResult → Option (List Char)
  | RunResult.ok v _ _ => some v
  | RunResult.panicked _ _ => none

/-- The panic message of an aborted run, if it panicked. -/
def RunResult.panicMsg : RunResult → Option String
  | RunResult.ok _ _ _ => none
  | RunResult.panicked m _ => some m

/-- The stream effects a run performed. -/
def RunResult.trace : RunResult → List Effect
  | RunResult.ok _ _ t => t
  | RunResult.panicked _ t => t

/-- Terminator handling of `prompt!` and `eprompt!` (src/lib.rs lines 93-98 and
154-159): pop the last character if it is a newline, then pop the last
character if it is a carriage return.  The second test is performed on the
result of the first and is not conditioned on the first pop having happened. -/
def stripPrompt (s : List Char) : List Char :=
  let s1 := if s.getLast? = some '\n' then s.dropLast else s
  if s1.getLast? = some '\r' then s1.dropLast else s1

/-- Rust `str::strip_suffix` with a character pattern: if the string ends with
that character, `some` of a copy without it, else `none`.  The receiver itself
is not modified. -/
def stripSuffix (s : List Char) (c : Char) : Option (List Char) :=
  if s.getLast? = some c then some s.dropLast else none

/-- Terminator handling of `promptln!` and `epromptln!` (src/lib.rs lines
125-127 and 186-188): the code tests `s.strip_suffix` and discards both
returned values, binding the inner one to `_`, so the captured line is in fact
returned unchanged. -/
def stripPromptln (s : List Char) : List Char :=
  if (stripSuffix s '\n').isSome then
    let _ := stripSuffix s '\r'
    s
  else s

/-- Embeds the `prompt!` macro (src/lib.rs lines 87-101): `print!` the
formatted text to stdout, flush stdout — `expect`-panicking with
"failed writing to stdout" on failure —, `read_line` — `expect`-panicking with
"failed reading from stdin" on failure —, then strip the terminator as in
`stripPrompt` and return the string. -/
def prompt (fmt : List Char) (e : StreamErrs) (stdin : List Char) : RunResult :=
  let t1 : List Effect := [Effect.writeOut fmt, Effect.flushOut]
  if e.flushErr then RunResult.panicked "failed writing to stdout" t1
  else
    match read_line e.readErr stdin with
    | Except.error _ =>
        RunResult.panicked "failed reading from stdin" (t1 ++ [Effect.readIn])
    | Except.ok p =>
        RunResult.ok (stripPrompt p.1) p.2 (t1 ++ [Effect.readIn])

/-- Embeds the `promptln!` macro (src/lib.rs lines 119-130): `println!` the
formatted text plus a newline to stdout, flush stdout — panicking with
"failed writing to stdout" —, `read_line` — panicking with
"failed reading from stdin" —, then apply the (ineffective) stripping of
`stripPromptln` and return the string. -/
def promptln (fmt : List Char) (e : StreamErrs) (stdin : List Char) : RunResult :=
  let t1 : List Effect := [Effect.writeOut (fmt ++ ['\n']), Effect.flushOut]
  if e.flushErr then RunResult.panicked "failed writing to stdout" t1
  else
    match read_line e.readErr stdin with
    | Except.error _ =>
        RunResult.panicked "failed reading from stdin" (t1 ++ [Effect.readIn])
    | Except.ok p =>
        RunResult.ok (stripPromptln p.1) p.2 (t1 ++ [Effect.readIn])

/-- Embeds the `eprompt!` macro (src/lib.rs lines 148-162): despite its name
and documentation, the body uses `print!` and `stdout().flush()`, so the
prompt text goes to stdout; flush failure panics with
"failed writing to stdout", read failure panics with
"failed reading from stderr", and the terminator is stripped as in
`stripPrompt`. -/
def eprompt (fmt : List Char) (e : StreamErrs) (stdin : List Char) : RunResult :=
  let t1 : List Effect := [Effect.writeOut fmt, Effect.flushOut]
  if e.flushErr then RunResult.panicked "failed writing to stdout" t1
  else
    match read_line e.readErr stdin with
    | Except.error _ =>
        RunResult.panicked "failed reading from stderr" (t1 ++ [Effect.readIn])
    | Except.ok p =>
        RunResult.ok (stripPrompt p.1) p.2 (t1 ++ [Effect.readIn])

/-- Embeds the `epromptln!` macro (src/lib.rs lines 180-191): the body uses
`println!` and `stdout().flush()`, so the prompt text plus newline goes to
stdout; flush failure panics with "failed writing to stdout", read failure
panics with "failed reading from stderr", and the (ineffective) stripping of
`stripPromptln` is applied. -/
def epromptln (fmt : List Char) (e : StreamErrs) (stdin : List Char) : RunResult :=
  let t1 : List Effect := [Effect.writeOut (fmt ++ ['\n']), Effect.flushOut]
  if e.flushErr then RunResult.panicked "failed writing to stdout" t1
  else
    match read_line e.readErr stdin with
    | Except.error _ =>
        RunResult.panicked "failed reading from stderr" (t1 ++ [Effect.readIn])
    | Except.ok p =>
        RunResult.ok (stripPromptln p.1) p.2 (t1 ++ [Effect.readIn])

/-- A line containing no newline is consumed whole at end-of-stream. -/
theorem readLineFrom_no_newline (L : List Char) (h : '\n' ∉ L) :
    readLineFrom L = (L, []) := by
  induction L with
  | nil => rfl
  | cons c cs ih =>
      have hc : c ≠ '\n' := fun hc => h (hc ▸ List.mem_cons_self c cs)
      have hcs : '\n' ∉ cs := fun hm => h (List.mem_cons_of_mem c hm)
      simp [readLineFrom, hc, ih hcs]

/-- The `promptln!`-style stripping changes nothing. -/
theorem stripPromptln_eq_self (s : List Char) : stripPromptln s = s := by
  unfold stripPromptln
  split <;> rfl

/-- A captured line ending in neither a newline nor a carriage return is left
unchanged by the prompt-style stripping. -/
theorem stripPrompt_eq_self (s : List Char) (hn : s.getLast? ≠ some '\n')
    (hr : s.getLast? ≠ some '\r') : stripPrompt s = s := by
  simp [stripPrompt, hn, hr]

/-- The prompt-style stripping removes at most two characters, all from the
end of the captured line. -/
theorem stripPrompt_take (s : List Char) :
    ∃ k, k ≤ 2 ∧ stripPrompt s = List.take (s.length - k) s := by
  by_cases h1 : s.getLast? = some '\n'
  · by_cases h2 : s.dropLast.getLast? = some '\r'
    · refine ⟨2, by norm_num, ?_⟩
      have hs : stripPrompt s = s.dropLast.dropLast := by simp [stripPrompt, h1, h2]
      rw [hs, List.dropLast_eq_take s, List.dropLast_eq_take, List.length_take,
        List.take_take]
      congr 1
      omega
    · refine ⟨1, by norm_num, ?_⟩
      have hs : stripPrompt s = s.dropLast := by simp [stripPrompt, h1, h2]
      rw [hs]
      exact List.dropLast_eq_take s
  · by_cases h2 : s.getLast? = some '\r'
    · refine ⟨1, by norm_num, ?_⟩
      have hs : stripPrompt s = s.dropLast := by simp [stripPrompt, h1, h2]
      rw [hs]
      exact List.dropLast_eq_take s
    · refine ⟨0, by norm_num, ?_⟩
      have hs : stripPrompt s = s := by simp [stripPrompt, h1, h2]
      rw [hs]
      simp

/-- A terminated line is captured up to and including its newline, leaving the
rest of the stream. -/
theorem readLineFrom_terminated (t rest : List Char) (h : '\n' ∉ t) :
    readLineFrom (t ++ '\n' :: rest) = (t ++ ['\n'], rest) := by
  induction t with
  | nil => simp [readLineFrom]
  | cons c cs ih =>
      have hc : c ≠ '\n' := fun hc => h (hc ▸ List.mem_cons_self c cs)
      have hcs : '\n' ∉ cs := fun hm => h (List.mem_cons_of_mem c hm)
      simp [readLineFrom, hc, ih hcs]

/-- On the happy path `prompt!` returns the captured line with prompt-style
stripping applied. -/
theorem prompt_value_eq (fmt stdin : List Char) :
    (prompt fmt noErrs stdin).value = some (stripPrompt (readLineFrom stdin).1) := by
  simp [prompt, noErrs, read_line, RunResult.value]

/-- On the happy path `promptln!` returns the captured line with the
(ineffective) promptln-style stripping applied. -/
theorem promptln_value_eq (fmt stdin : List Char) :
    (promptln fmt noErrs stdin).value = some (stripPromptln (readLineFrom stdin).1) := by
  simp [promptln, noErrs, read_line, RunResult.value]

/-- On the happy path `eprompt!` returns the captured line with prompt-style
stripping applied. -/
theorem eprompt_value_eq (fmt stdin : List Char) :
    (eprompt fmt noErrs stdin).value = some (stripPrompt (readLineFrom stdin).1) := by
  simp [eprompt, noErrs, read_line, RunResult.value]

/-- On the happy path `epromptln!` returns the captured line with the
(ineffective) promptln-style stripping applied. -/
theorem epromptln_value_eq (fmt stdin : List Char) :
    (epromptln fmt noErrs stdin).value = some (stripPromptln (readLineFrom stdin).1) := by
  simp [epromptln, noErrs, read_line, RunResult.value]

/-- Claim C1: on the spec's own scenario, feeding "snack\n", `prompt!` and
`eprompt!` return "snack", but `promptln!` and `epromptln!` return "snack\n"
with the terminator intact — their `strip_suffix` results are discarded — so
the claim fails for the two promptln-style operations. -/
theorem c1_promptln_keeps_terminator :
    (prompt [] noErrs ("snack\n".toList)).value = some ("snack".toList) ∧
    (eprompt [] noErrs ("snack\n".toList)).value = some ("snack".toList) ∧
    (promptln [] noErrs ("snack\n".toList)).value = some ("snack\n".toList) ∧
    (epromptln [] noErrs ("snack\n".toList)).value = some ("snack\n".toList) := by
  decide

/-- Claim C2: running `eprompt!` with prompt "hi" on stdin "x\n" produces a
trace whose only write and flush target stdout — no effect in the whole run
(or in a run of `epromptln!`) touches stderr — refuting the claim that the
prompt text is written to the standard error stream. -/
theorem c2_eprompt_effects_on_stdout :
    eprompt ("hi".toList) noErrs ("x\n".toList) =
      RunResult.ok ("x".toList) []
        [Effect.writeOut ("hi".toList), Effect.flushOut, Effect.readIn] ∧
    (∀ ef ∈ (epromptln ("hi".toList) noErrs ("x\n".toList)).trace,
        touchesStderr ef = false) := by
  decide

/-- Claim C3, counterexample: on the unterminated line "abc\r" the `prompt!`
operation removes the trailing carriage return although no trailing newline
was (or could be) removed, contradicting the claim as stated. -/
theorem c3_cex_cr_stripped_without_newline :
    ("abc\r".toList).getLast? ≠ some '\n' ∧
    (prompt [] noErrs ("abc\r".toList)).value = some ("abc".toList) ∧
    (prompt [] noErrs ("abc\r".toList)).value ≠ some ("abc\r".toList) := by
  decide

/-- Claim C3, amended: each prompting operation strips at most one trailing
newline and at most one trailing carriage return from the end of the captured
line; `prompt!`/`eprompt!` pop a trailing '\n' if present and then pop a
trailing '\r' if present — even when no '\n' was popped — while
`promptln!`/`epromptln!` strip nothing at all. -/
theorem c3_strip_shape (s t : List Char) :
    stripPromptln s = s ∧
    stripPrompt (t ++ ['\r', '\n']) = t ∧
    (t.getLast? ≠ some '\r' → stripPrompt (t ++ ['\n']) = t) ∧
    stripPrompt (t ++ ['\r']) = t ∧
    (s.getLast? ≠ some '\n' → s.getLast? ≠ some '\r' → stripPrompt s = s) := by
  refine ⟨stripPromptln_eq_self s, ?_, ?_, ?_, fun hn hr => stripPrompt_eq_self s hn hr⟩
  · have h : t ++ ['\r', '\n'] = (t ++ ['\r']) ++ ['\n'] := by simp
    rw [h]
    simp [stripPrompt, List.getLast?_concat, List.dropLast_concat]
  · intro ht
    simp [stripPrompt, List.getLast?_concat, List.dropLast_concat, ht]
  · simp [stripPrompt, List.getLast?_concat, List.dropLast_concat]

/-- Claim C3, witness: instances of the amended statement with the hypotheses
discharged at concrete lines. -/
theorem c3_strip_shape_witness :
    stripPrompt (['a'] ++ ['\n']) = ['a'] ∧ stripPrompt ['b'] = ['b'] :=
  ⟨(c3_strip_shape ['b'] ['a']).2.2.1 (by decide),
   (c3_strip_shape ['b'] ['a']).2.2.2.2 (by decide) (by decide)⟩

/-- Claim C4, counterexample: the unterminated line "abc\r" (end-of-stream
before any newline) is not returned unchanged by `prompt!`: its trailing
carriage return is stripped. -/
theorem c4_cex_eof_line_altered :
    '\n' ∉ ("abc\r".toList) ∧
    (prompt [] noErrs ("abc\r".toList)).value ≠ some ("abc\r".toList) := by
  decide

/-- Claim C4, amended: a line delivered with no terminator is returned
unchanged by `promptln!`/`epromptln!` always, and by `prompt!`/`eprompt!`
exactly when it does not end with a carriage return (a trailing '\r' is
stripped even without a newline). -/
theorem c4_eof_line_returned (fmt L : List Char) (h : '\n' ∉ L) :
    (promptln fmt noErrs L).value = some L ∧
    (epromptln fmt noErrs L).value = some L ∧
    (L.getLast? ≠ some '\r' →
      (prompt fmt noErrs L).value = some L ∧
      (eprompt fmt noErrs L).value = some L) := by
  have hread := readLineFrom_no_newline L h
  have hn : L.getLast? ≠ some '\n' := fun hc => h (List.mem_of_mem_getLast? hc)
  refine ⟨?_, ?_, fun hcr => ⟨?_, ?_⟩⟩
  · rw [promptln_value_eq, hread, stripPromptln_eq_self]
  · rw [epromptln_value_eq, hread, stripPromptln_eq_self]
  · rw [prompt_value_eq, hread, stripPrompt_eq_self L hn hcr]
  · rw [eprompt_value_eq, hread, stripPrompt_eq_self L hn hcr]

/-- Claim C4, witness: the amended statement applied to the unterminated line
"ab" with the hypotheses discharged. -/
theorem c4_eof_line_returned_witness :
    (promptln [] noErrs ("ab".toList)).value = some ("ab".toList) ∧
    (prompt [] noErrs ("ab".toList)).value = some ("ab".toList) := by
  have h := c4_eof_line_returned [] ("ab".toList) (by decide)
  exact ⟨h.1, (h.2.2 (by decide)).1⟩

/-- Claim C5: feeding "42\r\n", `prompt!` and `eprompt!` return "42" with both
terminator characters stripped, but `promptln!` and `epromptln!` return
"42\r\n" with both characters intact, because their `strip_suffix` results
are discarded. -/
theorem c5_crlf_stripped_only_by_prompt :
    (prompt [] noErrs ("42\r\n".toList)).value = some ("42".toList) ∧
    (eprompt [] noErrs ("42\r\n".toList)).value = some ("42".toList) ∧
    (promptln [] noErrs ("42\r\n".toList)).value = some ("42\r\n".toList) ∧
    (epromptln [] noErrs ("42\r\n".toList)).value = some ("42\r\n".toList) := by
  decide

/-- Claim C6: a flush failure makes every prompting operation panic with
"failed writing to stdout"; a read failure makes `prompt!`/`promptln!` panic
with "failed reading from stdin" and `eprompt!`/`epromptln!` panic with
"failed reading from stderr"; `read_line` instead surfaces its failure as a
recoverable `io::Result` error value. -/
theorem c6_panic_policy (fmt stdin : List Char) (e : StreamErrs) :
    (e.flushErr = true →
      (prompt fmt e stdin).panicMsg = some "failed writing to stdout" ∧
      (promptln fmt e stdin).panicMsg = some "failed writing to stdout" ∧
      (eprompt fmt e stdin).panicMsg = some "failed writing to stdout" ∧
      (epromptln fmt e stdin).panicMsg = some "failed writing to stdout") ∧
    (e.flushErr = false → e.readErr = true →
      (prompt fmt e stdin).panicMsg = some "failed reading from stdin" ∧
      (promptln fmt e stdin).panicMsg = some "failed reading from stdin" ∧
      (eprompt fmt e stdin).panicMsg = some "failed reading from stderr" ∧
      (epromptln fmt e stdin).panicMsg = some "failed reading from stderr") ∧
    read_line true stdin = Except.error IOError.ioError := by
  obtain ⟨fe, re⟩ := e
  cases fe <;> cases re <;>
    simp [prompt, promptln, eprompt, epromptln, read_line, RunResult.panicMsg]

/-- Claim C6, witness: the panic-policy theorem applied at concrete failure
configurations. -/
theorem c6_panic_policy_witness :
    (prompt [] ⟨true, false⟩ []).panicMsg = some "failed writing to stdout" ∧
    (epromptln [] ⟨false, true⟩ []).panicMsg = some "failed reading from stderr" :=
  ⟨((c6_panic_policy [] [] ⟨true, false⟩).1 rfl).1,
   ((c6_panic_policy [] [] ⟨false, true⟩).2.1 rfl rfl).2.2.2⟩

/-- Claim C7: `read_line` returns the raw captured line with the terminator
included; but it is not the only operation that performs no terminator
stripping — `promptln!` also returns the captured line unstripped. -/
theorem c7_read_line_raw (t rest : List Char) (h : '\n' ∉ t) :
    read_line false (t ++ '\n' :: rest) = Except.ok (t ++ ['\n'], rest) ∧
    (promptln [] noErrs ("hey\n".toList)).value = some ("hey\n".toList) := by
  refine ⟨?_, by decide⟩
  rw [read_line, if_neg (by simp), readLineFrom_terminated t rest h]

/-- Claim C7, witness: the raw-read theorem applied to the line "hey". -/
theorem c7_read_line_raw_witness :
    read_line false (("hey".toList) ++ '\n' :: []) =
      Except.ok (("hey".toList) ++ ['\n'], []) :=
  (c7_read_line_raw ("hey".toList) [] (by decide)).1

/-- Claim C8: at immediate end-of-stream with zero bytes available,
`read_line` returns the empty string as a success value, and `prompt!`
returns the empty string. -/
theorem c8_empty_eof (fmt : List Char) :
    read_line false [] = Except.ok ([], []) ∧
    (prompt fmt noErrs []).value = some [] := by
  refine ⟨rfl, ?_⟩
  rw [prompt_value_eq]
  simp [readLineFrom, stripPrompt]

/-- Claim C9: on the happy path the value each of the four prompting macros
returns is a prefix of the raw line `read_line` captured, obtained by removing
at most two characters from its end. -/
theorem c9_value_prefix_of_raw (fmt stdin : List Char) :
    ∃ k, k ≤ 2 ∧
      (prompt fmt noErrs stdin).value =
        some (List.take ((readLineFrom stdin).1.length - k) (readLineFrom stdin).1) ∧
      (eprompt fmt noErrs stdin).value =
        some (List.take ((readLineFrom stdin).1.length - k) (readLineFrom stdin).1) ∧
      (promptln fmt noErrs stdin).value = some ((readLineFrom stdin).1) ∧
      (epromptln fmt noErrs stdin).value = some ((readLineFrom stdin).1) := by
  obtain ⟨k, hk, hs⟩ := stripPrompt_take (readLineFrom stdin).1
  exact ⟨k, hk, by rw [prompt_value_eq, hs], by rw [eprompt_value_eq, hs],
    by rw [promptln_value_eq, stripPromptln_eq_self],
    by rw [epromptln_value_eq, stripPromptln_eq_self]⟩

/-- Claim C10: on every path, including the panicking ones and for every
fault configuration, no prompting operation ever writes to or flushes the
standard error stream; `eprompt!` and `epromptln!` place their prompt text on
stdout. -/
theorem c10_stderr_never_touched (fmt stdin : List Char) (e : StreamErrs) :
    (∀ ef ∈ (prompt fmt e stdin).trace, touchesStderr ef = false) ∧
    (∀ ef ∈ (promptln fmt e stdin).trace, touchesStderr ef = false) ∧
    (∀ ef ∈ (eprompt fmt e stdin).trace, touchesStderr ef = false) ∧
    (∀ ef ∈ (epromptln fmt e stdin).trace, touchesStderr ef = false) ∧
    Effect.writeOut fmt ∈ (eprompt fmt e stdin).trace ∧
    Effect.writeOut (fmt ++ ['\n']) ∈ (epromptln fmt e stdin).trace := by
  obtain ⟨fe, re⟩ := e
  cases fe <;> cases re <;>
    simp [prompt, promptln, eprompt, epromptln, read_line, RunResult.trace,
      touchesStderr]
